import Mathlib

/-!
Verification development for the `personal_crawler` repository.

The Python sources embedded here are `src/scraper.py`, `src/simhash_basic.py`
and `src/tokenizer.py`.  Pure helper functions become Lean functions; the
module-level mutable globals of `scraper.py` (`visited_urls`,
`visited_hashes`, `subdomains`, `word_counts`, `longest_page`, `url_queue`,
`robots_parsers`) become an explicit `CrawlState` record threaded through the
functions that mutate them.

External collaborators (the pieces of behaviour the source consumes from
libraries rather than implements) are passed in as a `Collab` record of
functions: `urllib.parse.urlparse` (mapping a URL string to its components),
`urljoin`/`urldefrag` resolution, the md5 digest used by the fingerprint
engine, and the network fetch of a robots.txt file.  Everything the
repository itself computes on top of those collaborators is translated
directly from the source.

Numbers are modelled as `Nat`/`Int` (CPython integers are unbounded; the one
place the source masks to 64 bits, `hash_feature`, takes `% 2 ^ 64`
explicitly, mirroring its `& ((1 << 64) - 1)`).
-/

/-! ## Character and string primitives

Python string operations used by the source (`str.lower`, `str.split`,
`str.endswith`, substring search, `re` character classes) are modelled over
`List Char`, with ASCII semantics; every URL, token and text that appears in
any theorem below is ASCII. -/

/-- Lowercase every character of a string, the ASCII model of `str.lower()`. -/
def strLower (s : String) : String := String.mk (s.toList.map Char.toLower)

/-- `lstartsWith s p` is true when the list `p` is a prefix of the list `s`. -/
def lstartsWith : List Char → List Char → Bool
  | _, [] => true
  | [], _ :: _ => false
  | c :: cs, p :: ps => c == p && lstartsWith cs ps

/-- `lcontains s p` is true when `p` occurs as a contiguous sublist of `s`. -/
def lcontains : List Char → List Char → Bool
  | [], p => p.isEmpty
  | c :: cs, p => lstartsWith (c :: cs) p || lcontains cs p

/-- Substring occurrence test on strings: the model of Python `pat in s` and
of `re.search` for a pattern with no metacharacters. -/
def strContains (s pat : String) : Bool := lcontains s.toList pat.toList

/-- The model of Python `s.startswith(pat)`. -/
def strStartsWith (s pat : String) : Bool := lstartsWith s.toList pat.toList

/-- The model of Python `s.endswith(pat)`, and of `re.search(pat ++ "$", s)`
for a literal pattern (URLs handled by the program contain no newline, so the
before-final-newline reading of `$` never differs). -/
def strEndsWith (s pat : String) : Bool :=
  lstartsWith s.toList.reverse pat.toList.reverse

/-- The ASCII digit class, Python regex `\d`. -/
def isDigitC (c : Char) : Bool := '0' ≤ c && c ≤ '9'

/-- Number of digit characters at the head of the list. -/
def countLeadingDigits : List Char → Nat
  | [] => 0
  | c :: cs => if isDigitC c then countLeadingDigits cs + 1 else 0

/-- Occurrence of the literal `pat` followed immediately by at least `k`
digits: the model of `re.search` for obj patterns of the shape
`pat\d+` (`k = 1`), `pat\d{4}` (`k = 4`) and `pat\d{1,2}` (`k = 1`; an
unanchored search only needs the lower bound of the repetition). -/
def lcontainsThenDigits : List Char → List Char → Nat → Bool
  | [], _, _ => false
  | c :: cs, pat, k =>
    (lstartsWith (c :: cs) pat && decide (k ≤ countLeadingDigits (List.drop pat.length (c :: cs))))
      || lcontainsThenDigits cs pat k

/-- String version of `lcontainsThenDigits`. -/
def strContainsThenDigits (s pat : String) (k : Nat) : Bool :=
  lcontainsThenDigits s.toList pat.toList k

/-- Python whitespace class for `str.split()` with no arguments: space, tab,
newline, carriage return, vertical tab, form feed (ASCII model). -/
def isPySpace (c : Char) : Bool :=
  c == ' ' || c == Char.ofNat 9 || c == Char.ofNat 10 || c == Char.ofNat 13
    || c == Char.ofNat 11 || c == Char.ofNat 12

/-- Accumulator-based splitter behind `pySplit`; `acc` holds the current word
reversed. -/
def pySplitAux : List Char → List Char → List String
  | [], acc => if acc.isEmpty then [] else [String.mk acc.reverse]
  | c :: cs, acc =>
    if isPySpace c then
      if acc.isEmpty then pySplitAux cs [] else String.mk acc.reverse :: pySplitAux cs []
    else pySplitAux cs (c :: acc)

/-- The model of Python `text.split()`: split on runs of whitespace,
discarding empty words.  Used by `scraper` for its word count. -/
def pySplit (s : String) : List String := pySplitAux s.toList []

/-! ## tokenizer.py -/

/-- The character class `[A-Za-z0-9]` of `tokenizer.tokenize`. -/
def isAlnumC (c : Char) : Bool :=
  ('A' ≤ c && c ≤ 'Z') || ('a' ≤ c && c ≤ 'z') || ('0' ≤ c && c ≤ '9')

/-- Accumulator-based scanner behind `tokenize`: collects maximal runs of
`[A-Za-z0-9]`, exactly what `re.findall(r"[A-Za-z0-9]+", text)` returns. -/
def tokenizeAux : List Char → List Char → List String
  | [], acc => if acc.isEmpty then [] else [String.mk acc.reverse]
  | c :: cs, acc =>
    if isAlnumC c then tokenizeAux cs (c :: acc)
    else if acc.isEmpty then tokenizeAux cs []
    else String.mk acc.reverse :: tokenizeAux cs []

/-- `tokenizer.tokenize`: extract the `[A-Za-z0-9]+` words of the text and
lowercase each one. -/
def tokenize (text : String) : List String :=
  (tokenizeAux text.toList []).map strLower

/-! ## simhash_basic.py

`hash_feature` calls `hashlib.md5`; the digest-to-integer map is an external
collaborator `md5int : String → Nat`, and the source's own
`& ((1 << 64) - 1)` mask is kept as `% 2 ^ 64`. -/

/-- Python regex `\w` = word characters (ASCII model: alphanumeric or
underscore), used by `make_features` via `re.sub(r"[^\w]+", "", ...)`. -/
def isWordChar (c : Char) : Bool := isAlnumC c || c == '_'

/-- `simhash_basic.make_features` with the default shingle length 3: lowercase
the input, strip non-word characters, and take every length-3 window
(`out_str[i:i+3]` for `i` in `range(max(len(out_str) - 3 + 1, 1))`; for a
cleaned text shorter than 3 characters this yields the whole string as the
single feature, slices clipping exactly as in Python). -/
def make_features (input_str : String) : List String :=
  let out := (strLower input_str).toList.filter isWordChar
  (List.range (max (out.length - 3 + 1) 1)).map (fun i => String.mk ((out.drop i).take 3))

/-- `simhash_basic.hash_feature`: the md5 digest of the feature as an integer,
masked to 64 bits. -/
def hash_feature (md5int : String → Nat) (feature : String) : Nat :=
  md5int feature % 2 ^ 64

/-- `simhash_basic.make_simhash` with `hash_size = 64`: per bit position the
accumulator adds `+1` when the feature hash has the bit set and `-1`
otherwise, and the result sets exactly the positions whose accumulator is
strictly positive. -/
def make_simhash (md5int : String → Nat) (input_str : String) : Nat :=
  let features := make_features input_str
  let v : Nat → Int := fun i =>
    features.foldl (fun a f => a + (if (hash_feature md5int f).testBit i then 1 else -1)) 0
  (List.range 64).foldl (fun acc i => if v i > 0 then acc + 2 ^ i else acc) 0

/-- Fuel-driven popcount kernel; with fuel at least the bit length of `n` it
computes the number of set bits.  (`popcount` passes `n` itself as fuel, which
always suffices since a positive `n` has at most `n` binary digits.) -/
def popcountGo : Nat → Nat → Nat
  | _, 0 => 0
  | 0, _ + 1 => 0
  | fuel + 1, n + 1 => (n + 1) % 2 + popcountGo fuel ((n + 1) / 2)

/-- Number of set bits of `n`: Python's `bin(x).count("1")`. -/
def popcount (n : Nat) : Nat := popcountGo n n

/-- `simhash_basic.simhash_diff`: the Hamming distance, the popcount of the
XOR of the two fingerprints. -/
def simhash_diff (hash1 hash2 : Nat) : Nat := popcount (hash1 ^^^ hash2)

/-! ## URL components and external collaborators -/

/-- The components of a parsed URL that `scraper.py` reads off the result of
`urllib.parse.urlparse`: `scheme`, `netloc`, `path` (plus the query, which the
source never inspects apart from trap patterns matched on the full URL
string). -/
structure ParsedURL where
  scheme : String
  netloc : String
  path : String
  query : String

/-- The external collaborators consumed by `scraper.py`:

* `parse` — `urllib.parse.urlparse` on the URL strings the crawl encounters;
* `resolve` — `urljoin` against a base URL followed by `urldefrag`, used by
  `extract_next_links`;
* `md5int` — `int(hashlib.md5(feature.encode()).hexdigest(), 16)`, the
  unmasked digest integer consumed by `hash_feature`;
* `robotsFetch` — the outcome of `RobotFileParser.read()` for a robots URL:
  `none` when the read raises (network error/timeout), `some allow` when it
  succeeds, `allow u` being the verdict `can_fetch("*", u)` of the parsed
  policy. -/
structure Collab where
  parse : String → ParsedURL
  resolve : String → String → String
  md5int : String → Nat
  robotsFetch : String → Option (String → Bool)

/-! ## scraper.py : constants -/

/-- `MIN_WORD_COUNT = 50`. -/
def MIN_WORD_COUNT : Nat := 50

/-- `MAX_PAGE_SIZE = 1 * 1024 * 1024`. -/
def MAX_PAGE_SIZE : Nat := 1 * 1024 * 1024

/-- The source's `STOPWORDS` triple-quoted string, with each apostrophe
transcribed as an underscore (restored by `STOPWORDS` below; apostrophes are
spelled via their character code there). -/
def stopwordsRaw : String := "a about above after again against all am an and any are aren_t as at be because been before being below between both but by can_t cannot could couldn_t did didn_t do does doesn_t doing don_t down during each few for from further had hadn_t has hasn_t have haven_t having he he_d he_ll he_s her here here_s hers herself him himself his how how_s i i_d i_ll i_m i_ve if in into is isn_t it it_s its itself let_s me more most mustn_t my myself no nor not of off on once only or other ought our ours ourselves out over own same shan_t she she_d she_ll she_s should shouldn_t so some such than that that_s the their theirs them themselves then there there_s these they they_d they_ll they_re they_ve this those through to too under until up very was wasn_t we we_d we_ll we_re we_ve were weren_t what what_s when when_s where where_s which while who who_s whom why why_s with won_t would wouldn_t you you_d you_ll you_re you_ve your yours yourself yourselves"

/-- The apostrophe character, by code point. -/
def aposChar : Char := Char.ofNat 39

/-- `STOPWORDS`: the whitespace-split word set of the source's stopword
string (underscore placeholders mapped back to apostrophes). -/
def STOPWORDS : List String :=
  pySplit (String.mk (stopwordsRaw.toList.map (fun c => if c == '_' then aposChar else c)))

/-! ## scraper.py : trap detection

`TRAP_PATTERNS` is a list of regexes, each applied to the whole URL with
`re.search`.  Every pattern is a literal string, a literal followed by a
digit repetition, or an end anchor, so each is modelled by the matching
string primitive; the groups below keep the source's order and content. -/

/-- The purely literal members of `TRAP_PATTERNS` (for these `re.search` is a
substring test; `\?` and `\.` are escaped literals): `\?sort=`, `\?order=`,
`\?date=`, `\?filter=`, `calendar`, `\?view=`, `\?session=`, `\?print=`,
`\?lang=`, `\?mode=`, `\?tribe-bar-date=`, `outlook-ical=`, `doku\.php`,
`\?do=media`, `\?tab_details=`, `\?tab_files=`, `&do=diff`, `&do=edit`,
`&printable=yes`, `\?share=`, `\?replytocom=`, `\?fbclid=`, `utm_`,
`\?redirect=`, `\?attachment_id=`. -/
def TRAP_SUBSTRINGS : List String :=
  ["?sort=", "?order=", "?date=", "?filter=", "calendar", "?view=",
   "?session=", "?print=", "?lang=", "?mode=", "?tribe-bar-date=",
   "outlook-ical=", "doku.php", "?do=media", "?tab_details=", "?tab_files=",
   "&do=diff", "&do=edit", "&printable=yes", "?share=", "?replytocom=",
   "?fbclid=", "utm_", "?redirect=", "?attachment_id="]

/-- The members of `TRAP_PATTERNS` with a digit repetition, as
(literal, minimum digit count) pairs: `\?page=\d+`, `\?year=\d{4}`,
`\?month=\d{1,2}`, `\?day=\d{1,2}`, `\?rev=\d+`. -/
def TRAP_DIGIT_PATTERNS : List (String × Nat) :=
  [("?page=", 1), ("?year=", 4), ("?month=", 1), ("?day=", 1), ("?rev=", 1)]

/-- The end-anchored members of `TRAP_PATTERNS`: `\.ical$`, `\.ics$`. -/
def TRAP_SUFFIXES : List String := [".ical", ".ics"]

/-- Does any pattern of `TRAP_PATTERNS` match the URL (the source's
`for pattern in TRAP_PATTERNS: if re.search(pattern, url): return True`)? -/
def trapPatternsMatch (url : String) : Bool :=
  TRAP_SUBSTRINGS.any (fun p => strContains url p)
    || TRAP_DIGIT_PATTERNS.any (fun pk => strContainsThenDigits url pk.1 pk.2)
    || TRAP_SUFFIXES.any (fun p => strEndsWith url p)

/-- `scraper.is_trap`: true when `"doku.php"` occurs in the parsed path, or
any trap pattern matches the full URL. -/
def is_trap (ext : Collab) (url : String) : Bool :=
  strContains (ext.parse url).path ("doku.php") || trapPatternsMatch url

/-! ## scraper.py : URL validation -/

/-- The `allowed_domains` list of `is_valid`, each entry carrying its leading
dot exactly as in the source. -/
def ALLOWED_DOMAINS : List String :=
  [".ics.uci.edu", ".cs.uci.edu", ".informatics.uci.edu", ".stat.uci.edu"]

/-- The source's `any(parsed.netloc.endswith(domain) for domain in
allowed_domains)`. -/
def hostAllowed (netloc : String) : Bool :=
  ALLOWED_DOMAINS.any (fun d => strEndsWith netloc d)

/-- The alternatives of the extension deny-list regex of `is_valid`, with the
`tiff?` optional letter expanded to its two words. -/
def DISALLOWED_EXTS : List String :=
  ["css", "js", "bmp", "gif", "jpg", "jpeg", "png", "pdf", "ico",
   "tif", "tiff", "mid", "mp2", "mp3", "mp4", "wav", "avi", "mov", "mpeg",
   "m4v", "mkv", "ogg", "ogv",
   "ps", "eps", "tex", "ppt", "pptx", "doc", "docx", "xls", "xlsx",
   "data", "dat", "exe", "bz2", "tar", "msi", "bin", "7z", "dmg", "iso",
   "epub", "dll", "cnf", "tgz", "sha1", "thmx", "mso", "arff", "rtf", "jar",
   "csv", "rm", "smil", "wmv", "swf", "wma", "zip", "rar", "gz", "ical",
   "ppsx", "pps", "mol"]

/-- The deny-list regex `re.match(r".*\.(css|js|...)$", parsed.path.lower())`
of `is_valid`: for the newline-free paths the crawler handles this holds
exactly when the lowercased path ends in a dot followed by one of the listed
extensions. -/
def extensionBlocked (path : String) : Bool :=
  DISALLOWED_EXTS.any (fun e => strEndsWith (strLower path) ("." ++ e))

/-- `scraper.is_valid` on the components returned by `urlparse`: scheme must
be http or https, the netloc must end with a dotted allow-list domain, and
the path must not carry a denied extension.  (The try/except wrapper around
the body is modelled separately by `is_valid_total`.) -/
def is_valid (parsed : ParsedURL) : Bool :=
  if parsed.scheme ∉ (["http", "https"] : List String) then false
  else if !hostAllowed parsed.netloc then false
  else if extensionBlocked parsed.path then false
  else true

/-- Python exceptions relevant to `is_valid`: `urlparse` raises `TypeError`
for non-string input and `ValueError` for, e.g., an unclosed IPv6 bracket
host. -/
inductive PyErr where
  | typeError : PyErr
  | valueError : PyErr
deriving DecidableEq

/-- `scraper.is_valid` as called, including its `try`/`except` wrapper over
the `urlparse` outcome: on a successful parse the body's boolean is returned;
on `TypeError` the handler prints and re-`raise`s, and any other exception is
uncaught — in both cases the exception propagates to the caller. -/
def is_valid_total : Except PyErr ParsedURL → Except PyErr Bool
  | Except.ok parsed => Except.ok (is_valid parsed)
  | Except.error PyErr.typeError => Except.error PyErr.typeError
  | Except.error e => Except.error e

/-! ## scraper.py : crawl state

The module-level globals of `scraper.py`.  Python sets become `Finset`s,
Python dicts become partial maps `String → Option Nat` (absent key = `none`),
and the `robots_parsers` cache maps a robots URL to the state of the
`RobotFileParser` object stored there. -/

/-- The observable state of a cached `urllib.robotparser.RobotFileParser`:

* `unread` — the object was constructed and `set_url` ran, but `read()`
  raised before any directives were parsed.  Per CPython's robotparser, such
  an object answers `can_fetch(...) = False` for every URL (its
  `last_checked` is still zero and neither `allow_all` nor `disallow_all`
  is set).
* `policy allow` — `read()` succeeded; `allow u` is the parsed policy's
  verdict `can_fetch("*", u)` (this also covers the HTTPError cases `read`
  handles internally, such as 401/403 → deny all and 404 → allow all). -/
inductive RobotsParser where
  | unread : RobotsParser
  | policy : (String → Bool) → RobotsParser

/-- `RobotFileParser.can_fetch("*", url)` on a cached parser object. -/
def rp_can_fetch : RobotsParser → String → Bool
  | RobotsParser.unread, _ => false
  | RobotsParser.policy allow, url => allow url

/-- The mutable globals of `scraper.py`, gathered into one record. -/
structure CrawlState where
  visited_urls : Finset String
  visited_hashes : Finset Nat
  subdomains : String → Option Nat
  word_counts : String → Option Nat
  longest_page : Option String × Nat
  url_queue : List String
  robots_parsers : String → Option RobotsParser

/-- The initial values of the globals: empty sets and dicts, an empty queue,
and `longest_page = (None, 0)`. -/
def initState : CrawlState where
  visited_urls := ∅
  visited_hashes := ∅
  subdomains := fun _ => none
  word_counts := fun _ => none
  longest_page := (none, 0)
  url_queue := []
  robots_parsers := fun _ => none

/-- Python `d.get(k, dflt)` on a modelled dict. -/
def dictGetD (d : String → Option Nat) (k : String) (dflt : Nat) : Nat :=
  (d k).getD dflt

/-- Python `d[k] = v` on a modelled dict. -/
def dictSet (d : String → Option Nat) (k : String) (v : Nat) : String → Option Nat :=
  fun x => if x = k then some v else d x

/-- Python `base.update(upd)`: keys present in `upd` override `base`. -/
def dictUpdate (base upd : String → Option Nat) : String → Option Nat :=
  fun k => match upd k with
    | some v => some v
    | none => base k

/-! ## scraper.py : politeness gate -/

/-- The cache key built by `can_fetch`:
`f"{parsed.scheme}://{parsed.netloc}/robots.txt"`. -/
def robots_domain (ext : Collab) (url : String) : String :=
  (ext.parse url).scheme ++ "://" ++ (ext.parse url).netloc ++ "/robots.txt"

/-- `scraper.can_fetch`.  On a cache miss the source stores a fresh
`RobotFileParser` in the dict and then tries `read()`: if the read raises,
the handler returns `True` immediately — leaving the never-read parser
cached — and otherwise control falls through to
`robots_parsers[domain].can_fetch("*", url)`.  A cache hit goes straight to
that final lookup. -/
def can_fetch (ext : Collab) (url : String) (s : CrawlState) : Bool × CrawlState :=
  let domain := robots_domain ext url
  match s.robots_parsers domain with
  | some rp => (rp_can_fetch rp url, s)
  | none =>
    match ext.robotsFetch domain with
    | none =>
      (true,
       { s with robots_parsers :=
          fun k => if k = domain then some RobotsParser.unread else s.robots_parsers k })
    | some allow =>
      (rp_can_fetch (RobotsParser.policy allow) url,
       { s with robots_parsers :=
          fun k => if k = domain then some (RobotsParser.policy allow) else s.robots_parsers k })

/-! ## scraper.py : near-duplicate check -/

/-- `scraper.is_similar`, acting on the `visited_hashes` global: compute the
page's simhash; if some previously accepted hash is within Hamming distance
5 (`simhash_diff ... < 5`), report a duplicate and leave the set alone;
otherwise add the new hash and report fresh content. -/
def is_similar (md5int : String → Nat) (text : String) (seen : Finset Nat) :
    Bool × Finset Nat :=
  let page_hash := make_simhash md5int text
  if ∃ old ∈ seen, simhash_diff page_hash old < 5 then (true, seen)
  else (false, insert page_hash seen)

/-! ## scraper.py : statistics -/

/-- `scraper.update_word_counts`:
`word_counts[word] = word_counts.get(word, 0) + 1` for each token. -/
def update_word_counts (tokens : List String) (d : String → Option Nat) :
    String → Option Nat :=
  tokens.foldl (fun d w => dictSet d w (dictGetD d w 0 + 1)) d

/-- `scraper.track_unique_pages`: when the URL is new, add it to
`visited_urls` and bump (or create) its netloc's entry in `subdomains`. -/
def track_unique_pages (ext : Collab) (url : String) (s : CrawlState) : CrawlState :=
  let domain := (ext.parse url).netloc
  if url ∈ s.visited_urls then s
  else
    { s with
      visited_urls := insert url s.visited_urls
      subdomains := dictSet s.subdomains domain (dictGetD s.subdomains domain 0 + 1) }

/-! ## scraper.py : link extraction and the frontier -/

/-- The response object handed to `scraper` by the external fetcher, reduced
to the fields the source reads.  `location` is
`raw_response.headers.get("Location")`; `contentLength` is
`len(raw_response.content)`; `text` and `hrefs` are what
`BeautifulSoup(raw_response.content, "html.parser")` yields via `get_text()`
and the `href` attributes of its `<a>` tags (HTML parsing is an external
collaborator). -/
structure Raw where
  location : Option String
  contentLength : Nat
  text : String
  hrefs : List String

/-- A fetch response: status plus the optional raw response object. -/
structure Resp where
  status : Nat
  raw_response : Option Raw

/-- `scraper.extract_next_links` on the soup's hrefs: each href is resolved
against the page URL (`urljoin`) and stripped of its fragment (`urldefrag`),
both via the `resolve` collaborator. -/
def extract_next_links (ext : Collab) (url : String) (raw : Raw) : List String :=
  raw.hrefs.map (fun h => ext.resolve url h)

/-- One iteration of the frontier loop of `scraper`: skip a link already in
`visited_urls`, otherwise add it to `visited_urls` and append it to
`url_queue`. -/
def enqueue_step (st : CrawlState) (link : String) : CrawlState :=
  if link ∈ st.visited_urls then st
  else
    { st with
      visited_urls := insert link st.visited_urls
      url_queue := st.url_queue ++ [link] }

/-- The frontier loop of `scraper`:
`for link in valid_links: if link not in visited_urls: add; append`. -/
def enqueue_new (links : List String) (s : CrawlState) : CrawlState :=
  links.foldl enqueue_step s

/-! ## scraper.py : the orchestrator -/

/-- `scraper.scraper`, the per-page pipeline, with the source's guards in
order: robots gate, unknown 6XX status, 3XX redirect (return the `Location`
header as the sole link, or nothing when the header is missing), the
`status != 200 or raw_response is None` rejection, the 1 MiB size guard, the
trap check, the simhash near-duplicate check (which inserts into
`visited_hashes` when the page is fresh), the `< 50` word-count guard, and
finally statistics, link extraction/validation and the frontier loop.  The
final `save_log()` writes the checkpoint file and changes no in-memory
state.  One branch is unreachable under these theorems: on a 3XX response
whose `raw_response` is `None` the Python source would raise
(`None.headers`), and the model returns the empty list there. -/
def scraper (ext : Collab) (url : String) (resp : Resp) (s0 : CrawlState) :
    List String × CrawlState :=
  let r := can_fetch ext url s0
  let s := r.2
  if r.1 = false then ([], s)
  else if 600 ≤ resp.status ∧ resp.status < 700 then ([], s)
  else if 300 ≤ resp.status ∧ resp.status ≤ 399 then
    match resp.raw_response with
    | some raw =>
      match raw.location with
      | some new_url => ([new_url], s)
      | none => ([], s)
    | none => ([], s)
  else
    match resp.raw_response with
    | none => ([], s)
    | some raw =>
      if resp.status ≠ 200 then ([], s)
      else if raw.contentLength > MAX_PAGE_SIZE then ([], s)
      else if is_trap ext url then ([], s)
      else
        let text := raw.text
        let sim := is_similar ext.md5int text s.visited_hashes
        let s2 := { s with visited_hashes := sim.2 }
        if sim.1 then ([], s2)
        else
          let word_count := (pySplit text).length
          if word_count < MIN_WORD_COUNT then ([], s2)
          else
            let tokens := (tokenize text).filter (fun w => !STOPWORDS.contains w)
            let s3 := { s2 with word_counts := update_word_counts tokens s2.word_counts }
            let s4 :=
              if word_count > s3.longest_page.2 then
                { s3 with longest_page := (some url, word_count) }
              else s3
            let s5 := track_unique_pages ext url s4
            let links := extract_next_links ext url raw
            let vlinks := links.filter (fun l => is_valid (ext.parse l))
            let s6 := enqueue_new vlinks s5
            (vlinks, s6)

/-! ## scraper.py : checkpointing

`save_log` serializes `visited_urls` (as a list), `word_counts`,
`subdomains` and `longest_page` to JSON; `load_log` reads them back, turning
the visited list into a set, `update`-merging both dicts and replacing
`longest_page`.  JSON encoding/decoding of a string list, two string-to-int
dicts, and an optional-string/int pair is faithful, so the file layer is
modelled as the identity on this record. -/

/-- The checkpoint record written by `save_log`. -/
structure LogData where
  visited_urls : List String
  word_counts : String → Option Nat
  subdomains : String → Option Nat
  longest_page : Option String × Nat

/-- `scraper.save_log`: snapshot the four persisted globals (the fingerprint
set and the queue are not written).  Python's `list(visited_urls)` walks the
set in unspecified hash order; the model fixes the canonical sorted
enumeration, which reloads to the same set. -/
def save_log (s : CrawlState) : LogData where
  visited_urls := s.visited_urls.sort (· ≤ ·)
  word_counts := s.word_counts
  subdomains := s.subdomains
  longest_page := s.longest_page

/-- `scraper.load_log` applied to a successfully read checkpoint:
`visited_urls = set(...)`, `word_counts.update(...)`,
`subdomains.update(...)`, `longest_page = tuple(...)`. -/
def load_log (d : LogData) (s : CrawlState) : CrawlState :=
  { s with
    visited_urls := d.visited_urls.toFinset
    word_counts := dictUpdate s.word_counts d.word_counts
    subdomains := dictUpdate s.subdomains d.subdomains
    longest_page := d.longest_page }

/-! ## Concrete fixtures

Closed inputs used by the witness and counterexample theorems below: a small
family of URLs on the allowed domains, a deterministic stand-in for the
external collaborators, and a few responses. -/

/-- A page URL on an allowed subdomain. -/
def urlA : String := "https://a.ics.uci.edu/p"

/-- `urlparse urlA`. -/
def pPage : ParsedURL where
  scheme := "https"
  netloc := "a.ics.uci.edu"
  path := "/p"
  query := ""

/-- An outbound link on an allowed subdomain. -/
def linkB : String := "https://b.ics.uci.edu/x.html"

/-- `urlparse linkB`. -/
def pLinkB : ParsedURL where
  scheme := "https"
  netloc := "b.ics.uci.edu"
  path := "/x.html"
  query := ""

/-- A redirect target on an allowed subdomain. -/
def locY : String := "https://a.ics.uci.edu/y"

/-- A redirect target outside the domain allow-list. -/
def locEvil : String := "https://evil.example.com/t"

/-- `urlparse locEvil`. -/
def pEvil : ParsedURL where
  scheme := "https"
  netloc := "evil.example.com"
  path := "/t"
  query := ""

/-- A concrete `urlparse` stand-in agreeing with CPython on the fixture
URLs. -/
def parseT : String → ParsedURL :=
  fun u => if u = linkB then pLinkB else if u = locEvil then pEvil else pPage

/-- Concrete collaborators: fixture parsing, identity resolution (the fixture
hrefs are already absolute and fragment-free), a constant md5 stand-in, and a
robots fetch that succeeds with an allow-all policy. -/
def collabOK : Collab where
  parse := parseT
  resolve := fun _ h => h
  md5int := fun _ => 0
  robotsFetch := fun _ => some (fun _ => true)

/-- Collaborators whose robots fetch always fails (raises). -/
def collabFail : Collab where
  parse := parseT
  resolve := fun _ h => h
  md5int := fun _ => 0
  robotsFetch := fun _ => none

/-- The robots cache key of `urlA` under `parseT`. -/
def robotsKeyA : String := "https://a.ics.uci.edu/robots.txt"

/-- `n` copies of the word `w` separated by single spaces. -/
def wordsRep (w : String) : Nat → String
  | 0 => ""
  | 1 => w
  | n + 2 => w ++ " " ++ wordsRep w (n + 1)

/-- Raw response with a one-word body. -/
def rawLow : Raw where
  location := none
  contentLength := 10
  text := "hello"
  hrefs := []

/-- A 200 response with a one-word body: below the 50-word threshold. -/
def respLow : Resp where
  status := 200
  raw_response := some rawLow

/-- Raw redirect response pointing inside the allow-list. -/
def rawRedir : Raw where
  location := some locY
  contentLength := 0
  text := ""
  hrefs := []

/-- A 302 redirect response pointing inside the allow-list. -/
def respRedir : Resp where
  status := 302
  raw_response := some rawRedir

/-- Raw redirect response pointing outside the allow-list. -/
def rawRedirEvil : Raw where
  location := some locEvil
  contentLength := 0
  text := ""
  hrefs := []

/-- A 302 redirect response pointing outside the allow-list. -/
def respRedirEvil : Resp where
  status := 302
  raw_response := some rawRedirEvil

/-- Raw response with fifty words of text and one outbound href. -/
def rawLinks : Raw where
  location := none
  contentLength := 100
  text := wordsRep "w" 50
  hrefs := [linkB]

/-- A 200 response with fifty words of text and one outbound href. -/
def respLinks : Resp where
  status := 200
  raw_response := some rawLinks

/-- Raw response whose 56 words are all the stopword `the`. -/
def rawThe : Raw where
  location := none
  contentLength := 500
  text := wordsRep "the" 56
  hrefs := []

/-- A 200 response whose 56 words are all the stopword `the`. -/
def respThe : Resp where
  status := 200
  raw_response := some rawThe

/-- The spec's `post-stopword token count` of a page text: length of the
tokenized, stopword-filtered token list, exactly the `tokens` the pipeline
feeds to `update_word_counts`. -/
def post_stop_count (text : String) : Nat :=
  ((tokenize text).filter (fun w => !STOPWORDS.contains w)).length

/-- State with the outbound link `linkB` already visited and a cached
allow-all robots policy for `urlA`. -/
def stateSeenB : CrawlState :=
  { initState with
    visited_urls := {linkB}
    robots_parsers :=
      fun k => if k = robotsKeyA then some (RobotsParser.policy (fun _ => true)) else none }

/-- State holding a longest-page record of 52 words. -/
def stateLongest52 : CrawlState :=
  { initState with longest_page := (some linkB, 52) }

/-- State with the evil redirect target already visited and a cached
allow-all robots policy for `urlA`. -/
def stateSeenEvil : CrawlState :=
  { initState with
    visited_urls := {locEvil}
    robots_parsers :=
      fun k => if k = robotsKeyA then some (RobotsParser.policy (fun _ => true)) else none }


/-- State after the statistics stage of a successful `scraper` run (robots
cache updated by the gate, fingerprint inserted, word counts bumped, longest
page possibly replaced), before `track_unique_pages` and the frontier loop. -/
def midState (ext : Collab) (url : String) (raw : Raw) (s0 : CrawlState) : CrawlState :=
  let s1 := (can_fetch ext url s0).2
  let s2 := { s1 with visited_hashes := (is_similar ext.md5int raw.text s1.visited_hashes).2 }
  let toks := (tokenize raw.text).filter (fun w => !STOPWORDS.contains w)
  let s3 := { s2 with word_counts := update_word_counts toks s2.word_counts }
  if (pySplit raw.text).length > s3.longest_page.2 then
    { s3 with longest_page := (some url, (pySplit raw.text).length) }
  else s3

/-! ## Helper lemmas -/

theorem is_similar_fst_iff (md5int : String → Nat) (text : String) (seen : Finset Nat) :
    (is_similar md5int text seen).1 = true ↔
      ∃ old ∈ seen, simhash_diff (make_simhash md5int text) old < 5 := by
  by_cases h : ∃ old ∈ seen, simhash_diff (make_simhash md5int text) old < 5 <;>
    simp [is_similar, h]

theorem is_similar_snd_of_true (md5int : String → Nat) (text : String) (seen : Finset Nat)
    (hh : (is_similar md5int text seen).1 = true) :
    (is_similar md5int text seen).2 = seen := by
  by_cases h : ∃ old ∈ seen, simhash_diff (make_simhash md5int text) old < 5
  · simp [is_similar, h]
  · simp [is_similar, h] at hh

theorem is_similar_snd_of_false (md5int : String → Nat) (text : String) (seen : Finset Nat)
    (hh : (is_similar md5int text seen).1 = false) :
    (is_similar md5int text seen).2 = insert (make_simhash md5int text) seen := by
  by_cases h : ∃ old ∈ seen, simhash_diff (make_simhash md5int text) old < 5
  · simp [is_similar, h] at hh
  · simp [is_similar, h]

theorem is_similar_fresh_not_mem (md5int : String → Nat) (text : String) (seen : Finset Nat)
    (h : (is_similar md5int text seen).1 = false) :
    make_simhash md5int text ∉ seen := by
  intro hmem
  have : (is_similar md5int text seen).1 = true := by
    rw [is_similar_fst_iff]
    exact ⟨make_simhash md5int text, hmem, by simp [simhash_diff, popcount, popcountGo]⟩
  simp [this] at h

theorem can_fetch_frame (ext : Collab) (url : String) (s : CrawlState) :
    (can_fetch ext url s).2.visited_urls = s.visited_urls ∧
    (can_fetch ext url s).2.visited_hashes = s.visited_hashes ∧
    (can_fetch ext url s).2.subdomains = s.subdomains ∧
    (can_fetch ext url s).2.word_counts = s.word_counts ∧
    (can_fetch ext url s).2.longest_page = s.longest_page ∧
    (can_fetch ext url s).2.url_queue = s.url_queue := by
  unfold can_fetch
  rcases h : s.robots_parsers (robots_domain ext url) with _ | rp
  · rcases h2 : ext.robotsFetch (robots_domain ext url) with _ | allow <;> simp [h, h2]
  · simp [h]

theorem can_fetch_hit (ext : Collab) (url : String) (s : CrawlState) (rp : RobotsParser)
    (h : s.robots_parsers (robots_domain ext url) = some rp) :
    can_fetch ext url s = (rp_can_fetch rp url, s) := by
  unfold can_fetch
  simp [h]

theorem track_unique_pages_visited (ext : Collab) (url : String) (s : CrawlState) :
    (track_unique_pages ext url s).visited_urls = insert url s.visited_urls := by
  unfold track_unique_pages
  split <;> simp_all [Finset.insert_eq_self]

theorem track_unique_pages_frame (ext : Collab) (url : String) (s : CrawlState) :
    (track_unique_pages ext url s).visited_hashes = s.visited_hashes ∧
    (track_unique_pages ext url s).word_counts = s.word_counts ∧
    (track_unique_pages ext url s).longest_page = s.longest_page ∧
    (track_unique_pages ext url s).url_queue = s.url_queue := by
  unfold track_unique_pages
  split <;> simp

theorem enqueue_new_frame (links : List String) :
    ∀ s : CrawlState,
      (enqueue_new links s).visited_hashes = s.visited_hashes ∧
      (enqueue_new links s).subdomains = s.subdomains ∧
      (enqueue_new links s).word_counts = s.word_counts ∧
      (enqueue_new links s).longest_page = s.longest_page := by
  induction links with
  | nil => intro s; simp [enqueue_new]
  | cons x xs ih =>
    intro s
    have step : enqueue_new (x :: xs) s = enqueue_new xs (enqueue_step s x) := rfl
    rw [step]
    rcases ih (enqueue_step s x) with ⟨h1, h2, h3, h4⟩
    rw [h1, h2, h3, h4]
    unfold enqueue_step
    split <;> simp

theorem enqueue_new_mem_queue (links : List String) :
    ∀ (s : CrawlState) (l : String),
      l ∈ (enqueue_new links s).url_queue ↔
        l ∈ s.url_queue ∨ (l ∈ links ∧ l ∉ s.visited_urls) := by
  induction links with
  | nil => intro s l; simp [enqueue_new]
  | cons x xs ih =>
    intro s l
    have step : enqueue_new (x :: xs) s = enqueue_new xs (enqueue_step s x) := rfl
    rw [step, ih (enqueue_step s x) l]
    unfold enqueue_step
    by_cases hx : x ∈ s.visited_urls
    · rw [if_pos hx]
      simp only [List.mem_cons]
      constructor
      · rintro (h | ⟨hxs, hv⟩)
        · exact Or.inl h
        · exact Or.inr ⟨Or.inr hxs, hv⟩
      · rintro (h | ⟨rfl | hxs, hv⟩)
        · exact Or.inl h
        · exact absurd hx hv
        · exact Or.inr ⟨hxs, hv⟩
    · rw [if_neg hx]
      simp only [List.mem_append, List.mem_cons, List.not_mem_nil, or_false,
        Finset.mem_insert]
      constructor
      · rintro ((h | rfl) | ⟨hxs, hv⟩)
        · exact Or.inl h
        · exact Or.inr ⟨Or.inl rfl, hx⟩
        · push_neg at hv
          exact Or.inr ⟨Or.inr hxs, hv.2⟩
      · rintro (h | ⟨rfl | hxs, hv⟩)
        · exact Or.inl (Or.inl h)
        · exact Or.inl (Or.inr rfl)
        · rcases eq_or_ne l x with rfl | hlx
          · exact Or.inl (Or.inr rfl)
          · exact Or.inr ⟨hxs, by push_neg; exact ⟨hlx, hv⟩⟩

theorem scraper_redirect_eq (ext : Collab) (url : String) (resp : Resp) (s0 : CrawlState)
    (raw : Raw) (hraw : resp.raw_response = some raw)
    (h3 : 300 ≤ resp.status ∧ resp.status ≤ 399)
    (hcf : (can_fetch ext url s0).1 = true) :
    scraper ext url resp s0 =
      ((match raw.location with
        | some new_url => [new_url]
        | none => []),
       (can_fetch ext url s0).2) := by
  have h6 : ¬ (600 ≤ resp.status ∧ resp.status < 700) := by omega
  rcases hl : raw.location with _ | loc <;>
    simp [scraper, hcf, hraw, h6, h3, hl]

theorem scraper_lowword_eq (ext : Collab) (url : String) (resp : Resp) (s0 : CrawlState)
    (raw : Raw) (hraw : resp.raw_response = some raw) (hst : resp.status = 200)
    (hcf : (can_fetch ext url s0).1 = true)
    (hsize : ¬ raw.contentLength > MAX_PAGE_SIZE)
    (htrap : is_trap ext url = false)
    (hsim : (is_similar ext.md5int raw.text s0.visited_hashes).1 = false)
    (hwc : (pySplit raw.text).length < MIN_WORD_COUNT) :
    scraper ext url resp s0 =
      ([], { (can_fetch ext url s0).2 with
             visited_hashes := insert (make_simhash ext.md5int raw.text) s0.visited_hashes }) := by
  have h6 : ¬ (600 ≤ resp.status ∧ resp.status < 700) := by omega
  have h3 : ¬ (300 ≤ resp.status ∧ resp.status ≤ 399) := by omega
  have hvh : (can_fetch ext url s0).2.visited_hashes = s0.visited_hashes :=
    (can_fetch_frame ext url s0).2.1
  have hsnd := is_similar_snd_of_false ext.md5int raw.text s0.visited_hashes hsim
  simp [scraper, hraw, hst, hcf, h6, h3, hsize, htrap, hvh, hsim, hsnd, hwc]

theorem scraper_success_eq (ext : Collab) (url : String) (resp : Resp) (s0 : CrawlState)
    (raw : Raw) (hraw : resp.raw_response = some raw) (hst : resp.status = 200)
    (hcf : (can_fetch ext url s0).1 = true)
    (hsize : ¬ raw.contentLength > MAX_PAGE_SIZE)
    (htrap : is_trap ext url = false)
    (hsim : (is_similar ext.md5int raw.text s0.visited_hashes).1 = false)
    (hwc : ¬ (pySplit raw.text).length < MIN_WORD_COUNT) :
    scraper ext url resp s0 =
      ((extract_next_links ext url raw).filter (fun l => is_valid (ext.parse l)),
       enqueue_new ((extract_next_links ext url raw).filter (fun l => is_valid (ext.parse l)))
         (track_unique_pages ext url (midState ext url raw s0))) := by
  have h6 : ¬ (600 ≤ resp.status ∧ resp.status < 700) := by omega
  have h3 : ¬ (300 ≤ resp.status ∧ resp.status ≤ 399) := by omega
  have hvh : (can_fetch ext url s0).2.visited_hashes = s0.visited_hashes :=
    (can_fetch_frame ext url s0).2.1
  simp [scraper, midState, hraw, hst, hcf, h6, h3, hsize, htrap, hvh, hsim, hwc]

theorem midState_url_queue (ext : Collab) (url : String) (raw : Raw) (s0 : CrawlState) :
    (midState ext url raw s0).url_queue = s0.url_queue := by
  have h := (can_fetch_frame ext url s0).2.2.2.2.2
  simp only [midState]
  split <;> exact h

theorem midState_visited (ext : Collab) (url : String) (raw : Raw) (s0 : CrawlState) :
    (midState ext url raw s0).visited_urls = s0.visited_urls := by
  have h := (can_fetch_frame ext url s0).1
  simp only [midState]
  split <;> exact h

theorem midState_longest (ext : Collab) (url : String) (raw : Raw) (s0 : CrawlState) :
    (midState ext url raw s0).longest_page =
      if (pySplit raw.text).length > s0.longest_page.2 then
        ((some url : Option String), (pySplit raw.text).length)
      else s0.longest_page := by
  have h := (can_fetch_frame ext url s0).2.2.2.2.1
  simp only [midState]
  split <;> rename_i hc
  · rw [if_pos (by exact h ▸ hc)]
  · rw [if_neg (by exact h ▸ hc)]
    exact h

/-! ## Claim theorems -/

/-- Claim C1, counterexample: the claim asserts that a URL whose host is
exactly `ics.uci.edu` is accepted by `is_valid`; on the code it is rejected,
because every entry of `allowed_domains` carries a leading dot and
`"ics.uci.edu".endswith(".ics.uci.edu")` is false. -/
theorem C1_counterexample :
    is_valid { scheme := "https", netloc := "ics.uci.edu", path := "/", query := "" } = false := by
  decide

/-- Claim C1 (amended): `is_valid` accepts a URL only if its host is a proper
subdomain of one of ics.uci.edu, cs.uci.edu, informatics.uci.edu,
stat.uci.edu — i.e. the netloc ends with the dotted domain, a full-label
suffix match.  `cal.ics.uci.edu` is accepted, `notics.uci.edu` is rejected,
and a host exactly equal to `ics.uci.edu` is also rejected. -/
theorem C1_amended_proper_subdomains :
    (∀ p : ParsedURL, is_valid p = true → hostAllowed p.netloc = true) ∧
    is_valid { scheme := "https", netloc := "cal.ics.uci.edu", path := "/", query := "" } = true ∧
    is_valid { scheme := "https", netloc := "notics.uci.edu", path := "/", query := "" } = false ∧
    is_valid { scheme := "https", netloc := "ics.uci.edu", path := "/", query := "" } = false := by
  refine ⟨?_, by decide, by decide, by decide⟩
  intro p h
  unfold is_valid at h
  by_cases h1 : p.scheme ∉ (["http", "https"] : List String)
  · simp [h1] at h
  · by_cases h2 : hostAllowed p.netloc
    · exact h2
    · simp [h1, h2] at h

/-- Claim C1, witness: the implication of `C1_amended_proper_subdomains`
applied to the accepted URL with host `cal.ics.uci.edu`. -/
theorem C1_witness : hostAllowed "cal.ics.uci.edu" = true :=
  C1_amended_proper_subdomains.1
    { scheme := "https", netloc := "cal.ics.uci.edu", path := "/", query := "" } (by decide)

/-- Claim C5, counterexample: the claim asserts `is_valid` returns a boolean
for every input, treating malformed input as invalid and never raising.  On
the code a `urlparse` failure propagates: the `except TypeError` handler
ends in a bare `raise`, and other exceptions (e.g. the `ValueError` raised
for an unclosed IPv6 bracket) are not caught at all — the result is an
exception, not the boolean `False`. -/
theorem C5_counterexample :
    is_valid_total (Except.error PyErr.valueError) = Except.error PyErr.valueError ∧
    is_valid_total (Except.error PyErr.typeError) = Except.error PyErr.typeError ∧
    (Except.error PyErr.valueError : Except PyErr Bool) ≠ Except.ok false ∧
    (Except.error PyErr.valueError : Except PyErr Bool) ≠ Except.ok true := by
  refine ⟨rfl, rfl, by simp, by simp⟩

/-- Claim C5 (amended): for every successfully parsed URL `is_valid` returns
a boolean, but for unparsable input it does not return "invalid": the parse
exception propagates to the caller (`TypeError` is printed and re-raised,
anything else is uncaught). -/
theorem C5_amended_errors_propagate :
    (∀ p : ParsedURL, is_valid_total (Except.ok p) = Except.ok (is_valid p)) ∧
    (∀ e : PyErr, is_valid_total (Except.error e) = Except.error e) := by
  constructor
  · intro p; rfl
  · intro e; cases e <;> rfl

/-- Claim C6, counterexample: the claim asserts that after a failed
robots.txt fetch every subsequent `can_fetch` call for the same origin also
returns true.  On the code the never-read `RobotFileParser` stays cached,
and `RobotFileParser.can_fetch` answers `False` until a robots file has been
read — so the second call returns false. -/
theorem C6_counterexample :
    (can_fetch collabFail urlA initState).1 = true ∧
    (can_fetch collabFail urlA (can_fetch collabFail urlA initState).2).1 = false := by
  decide

/-- Claim C6 (amended): when the robots.txt fetch for an uncached origin
fails, `can_fetch` returns true on that call (fail-open) and leaves the
never-read parser object cached; every subsequent call for the same origin
is a pure lookup against that cached parser and returns false (the cached
`RobotFileParser` denies everything until a file is read), with no state
change and no re-fetch. -/
theorem C6_amended_failopen_once_then_deny (ext : Collab) (url : String) (s : CrawlState)
    (hmiss : s.robots_parsers (robots_domain ext url) = none)
    (hfail : ext.robotsFetch (robots_domain ext url) = none) :
    (can_fetch ext url s).1 = true ∧
    (can_fetch ext url s).2.robots_parsers (robots_domain ext url) = some RobotsParser.unread ∧
    (∀ url2 : String, robots_domain ext url2 = robots_domain ext url →
      can_fetch ext url2 (can_fetch ext url s).2 = (false, (can_fetch ext url s).2)) := by
  have hcf : can_fetch ext url s =
      (true,
       { s with robots_parsers :=
          fun k => if k = robots_domain ext url then some RobotsParser.unread
                   else s.robots_parsers k }) := by
    unfold can_fetch
    simp [hmiss, hfail]
  refine ⟨by rw [hcf], by rw [hcf]; simp, ?_⟩
  intro url2 h2
  rw [hcf]
  simp [can_fetch, h2, rp_can_fetch]

/-- Claim C6, witness: `C6_amended_failopen_once_then_deny` at the concrete
failing collaborator — first call true, second call false with unchanged
state. -/
theorem C6_witness :
    (can_fetch collabFail urlA initState).1 = true ∧
    can_fetch collabFail urlA (can_fetch collabFail urlA initState).2 =
      (false, (can_fetch collabFail urlA initState).2) := by
  have h := C6_amended_failopen_once_then_deny collabFail urlA initState rfl rfl
  exact ⟨h.1, h.2.2 urlA rfl⟩

/-- Claim C7: writing a checkpoint with `save_log` and loading it with
`load_log` into the fresh initial state restores `visited_urls`,
`word_counts`, `subdomains` and `longest_page` exactly. -/
theorem C7_checkpoint_roundtrip (s : CrawlState) :
    (load_log (save_log s) initState).visited_urls = s.visited_urls ∧
    (load_log (save_log s) initState).word_counts = s.word_counts ∧
    (load_log (save_log s) initState).subdomains = s.subdomains ∧
    (load_log (save_log s) initState).longest_page = s.longest_page := by
  refine ⟨?_, ?_, ?_, rfl⟩
  · simp [load_log, save_log, Finset.sort_toFinset]
  · funext k
    simp only [load_log, save_log, dictUpdate, initState]
    cases h : s.word_counts k <;> simp [h]
  · funext k
    simp only [load_log, save_log, dictUpdate, initState]
    cases h : s.subdomains k <;> simp [h]

/-- Claim C9: `is_similar` returns true exactly when some previously
accepted fingerprint is within Hamming distance 5 of the page's fingerprint,
and it inserts the new fingerprint into the seen set exactly when it returns
false — on a true (near-duplicate) result the set is unchanged. -/
theorem C9_is_similar_insert_iff (md5int : String → Nat) (text : String) (seen : Finset Nat) :
    ((is_similar md5int text seen).2 =
      if (is_similar md5int text seen).1 then seen
      else insert (make_simhash md5int text) seen) ∧
    ((is_similar md5int text seen).1 = true ↔
      ∃ old ∈ seen, simhash_diff (make_simhash md5int text) old < 5) := by
  refine ⟨?_, is_similar_fst_iff md5int text seen⟩
  cases h : (is_similar md5int text seen).1
  · simp [h, is_similar_snd_of_false md5int text seen h]
  · simp [h, is_similar_snd_of_true md5int text seen h]

/-- Claim C2, counterexample: the claim asserts a below-threshold page leaves
the accepted-fingerprint set unchanged.  On the code `is_similar` runs
before the word-count guard, so this one-word page's fingerprint is inserted
into `visited_hashes` even though the page is rejected (the return value and
`word_counts` do behave as claimed). -/
theorem C2_counterexample :
    (scraper collabOK urlA respLow initState).1 = [] ∧
    (scraper collabOK urlA respLow initState).2.word_counts = initState.word_counts ∧
    (scraper collabOK urlA respLow initState).2.visited_hashes ≠ initState.visited_hashes := by
  refine ⟨by decide, rfl, by decide⟩

/-- Claim C2 (amended): the fingerprint near-duplicate check runs before the
minimum-word-count check.  A page below the threshold (that is not itself a
near-duplicate) yields an empty link list and leaves `word_counts`,
`subdomains`, `longest_page`, `visited_urls` and the queue unchanged, but
its fingerprint is inserted into `visited_hashes`. -/
theorem C2_amended_fingerprint_before_wordcount (ext : Collab) (url : String) (resp : Resp)
    (s0 : CrawlState) (raw : Raw)
    (hraw : resp.raw_response = some raw) (hst : resp.status = 200)
    (hcf : (can_fetch ext url s0).1 = true)
    (hsize : ¬ raw.contentLength > MAX_PAGE_SIZE)
    (htrap : is_trap ext url = false)
    (hsim : (is_similar ext.md5int raw.text s0.visited_hashes).1 = false)
    (hwc : (pySplit raw.text).length < MIN_WORD_COUNT) :
    (scraper ext url resp s0).1 = [] ∧
    (scraper ext url resp s0).2.word_counts = s0.word_counts ∧
    (scraper ext url resp s0).2.subdomains = s0.subdomains ∧
    (scraper ext url resp s0).2.longest_page = s0.longest_page ∧
    (scraper ext url resp s0).2.visited_urls = s0.visited_urls ∧
    (scraper ext url resp s0).2.url_queue = s0.url_queue ∧
    (scraper ext url resp s0).2.visited_hashes =
      insert (make_simhash ext.md5int raw.text) s0.visited_hashes := by
  have heq := scraper_lowword_eq ext url resp s0 raw hraw hst hcf hsize htrap hsim hwc
  rcases can_fetch_frame ext url s0 with ⟨h1, h2, hsub, hwcnt, hlp, hq⟩
  rw [heq]
  exact ⟨rfl, hwcnt, hsub, hlp, h1, hq, rfl⟩

/-- Claim C2, witness: the amended theorem at the concrete one-word page —
empty link list, untouched word counts, fingerprint inserted. -/
theorem C2_witness :
    (scraper collabOK urlA respLow initState).2.word_counts = initState.word_counts ∧
    (scraper collabOK urlA respLow initState).2.visited_hashes =
      insert (make_simhash collabOK.md5int rawLow.text) initState.visited_hashes := by
  have h := C2_amended_fingerprint_before_wordcount collabOK urlA respLow initState rawLow
    rfl rfl (by decide) (by decide) (by decide) (by decide) (by decide)
  exact ⟨h.2.1, h.2.2.2.2.2.2⟩

/-- Claim C3, counterexample: the claim asserts the returned list equals the
set of never-before-seen valid links.  Here the page's only valid link is
already in `visited_urls`: nothing is appended to the queue, yet `scraper`
still returns that link — the code returns all valid links, seen or not. -/
theorem C3_counterexample :
    linkB ∈ stateSeenB.visited_urls ∧
    (scraper collabOK urlA respLinks stateSeenB).1 = [linkB] ∧
    (scraper collabOK urlA respLinks stateSeenB).2.url_queue = stateSeenB.url_queue := by
  refine ⟨by decide, by decide, by decide⟩

/-- Claim C3 (amended): for an accepted page, `scraper` appends to the queue
exactly the extracted valid links not already in `visited_urls` at the time
of the check (which by then contains the page's own URL and the earlier
links of the same page, each appended link at most once), but the list it
returns is all extracted valid links, including those already seen. -/
theorem C3_amended_frontier_and_return (ext : Collab) (url : String) (resp : Resp)
    (s0 : CrawlState) (raw : Raw)
    (hraw : resp.raw_response = some raw) (hst : resp.status = 200)
    (hcf : (can_fetch ext url s0).1 = true)
    (hsize : ¬ raw.contentLength > MAX_PAGE_SIZE)
    (htrap : is_trap ext url = false)
    (hsim : (is_similar ext.md5int raw.text s0.visited_hashes).1 = false)
    (hwc : ¬ (pySplit raw.text).length < MIN_WORD_COUNT) :
    (scraper ext url resp s0).1 =
      (extract_next_links ext url raw).filter (fun l => is_valid (ext.parse l)) ∧
    (∀ l : String,
      l ∈ (scraper ext url resp s0).2.url_queue ↔
        l ∈ s0.url_queue ∨
          (l ∈ (extract_next_links ext url raw).filter (fun l => is_valid (ext.parse l)) ∧
            l ∉ insert url s0.visited_urls)) := by
  have heq := scraper_success_eq ext url resp s0 raw hraw hst hcf hsize htrap hsim hwc
  have hq1 : (scraper ext url resp s0).1 =
      (extract_next_links ext url raw).filter (fun l => is_valid (ext.parse l)) := by
    rw [heq]
  have hq2 : (scraper ext url resp s0).2 =
      enqueue_new ((extract_next_links ext url raw).filter (fun l => is_valid (ext.parse l)))
        (track_unique_pages ext url (midState ext url raw s0)) := by
    rw [heq]
  refine ⟨hq1, ?_⟩
  intro l
  rw [hq2, enqueue_new_mem_queue,
    (track_unique_pages_frame ext url (midState ext url raw s0)).2.2.2,
    midState_url_queue, track_unique_pages_visited, midState_visited]

/-- Claim C3, witness: the amended theorem at a concrete accepted page with
one fresh valid link. -/
theorem C3_witness :
    (scraper collabOK urlA respLinks initState).1 =
      (extract_next_links collabOK urlA rawLinks).filter (fun l => is_valid (collabOK.parse l)) ∧
    (linkB ∈ (scraper collabOK urlA respLinks initState).2.url_queue ↔
      linkB ∈ initState.url_queue ∨
        (linkB ∈ (extract_next_links collabOK urlA rawLinks).filter
            (fun l => is_valid (collabOK.parse l)) ∧
          linkB ∉ insert urlA initState.visited_urls)) := by
  have h := C3_amended_frontier_and_return collabOK urlA respLinks initState rawLinks
    rfl rfl (by decide) (by decide) (by decide) (by decide) (by decide)
  exact ⟨h.1, h.2 linkB⟩

/-- Claim C4, counterexample: the claim asserts the longest-page record is
updated only when the post-stopword token count strictly exceeds the stored
count.  This page's 56 words are all stopwords (post-stopword count 0, not
above the stored 52), yet the record is updated — the code compares the raw
whitespace-split word count, not the post-stopword token count. -/
theorem C4_counterexample :
    post_stop_count (wordsRep "the" 56) = 0 ∧
    ¬ post_stop_count (wordsRep "the" 56) > stateLongest52.longest_page.2 ∧
    (scraper collabOK urlA respThe stateLongest52).2.longest_page ≠
      stateLongest52.longest_page := by
  refine ⟨by decide, by decide, by decide⟩

/-- Claim C4 (amended): on an accepted page the longest-page record is
updated exactly when the page's raw whitespace-split word count (before
tokenization and stopword filtering) strictly exceeds the stored count, and
the new record stores that raw count; otherwise it is unchanged. -/
theorem C4_amended_longest_uses_raw_count (ext : Collab) (url : String) (resp : Resp)
    (s0 : CrawlState) (raw : Raw)
    (hraw : resp.raw_response = some raw) (hst : resp.status = 200)
    (hcf : (can_fetch ext url s0).1 = true)
    (hsize : ¬ raw.contentLength > MAX_PAGE_SIZE)
    (htrap : is_trap ext url = false)
    (hsim : (is_similar ext.md5int raw.text s0.visited_hashes).1 = false)
    (hwc : ¬ (pySplit raw.text).length < MIN_WORD_COUNT) :
    (scraper ext url resp s0).2.longest_page =
      if (pySplit raw.text).length > s0.longest_page.2 then
        ((some url : Option String), (pySplit raw.text).length)
      else s0.longest_page := by
  have heq := scraper_success_eq ext url resp s0 raw hraw hst hcf hsize htrap hsim hwc
  have hq2 : (scraper ext url resp s0).2 =
      enqueue_new ((extract_next_links ext url raw).filter (fun l => is_valid (ext.parse l)))
        (track_unique_pages ext url (midState ext url raw s0)) := by
    rw [heq]
  rw [hq2,
    (enqueue_new_frame
      ((extract_next_links ext url raw).filter (fun l => is_valid (ext.parse l)))
      (track_unique_pages ext url (midState ext url raw s0))).2.2.2,
    (track_unique_pages_frame ext url (midState ext url raw s0)).2.2.1,
    midState_longest]

/-- Claim C4, witness: the amended theorem at the all-stopwords page over a
stored record of 52 words — the raw count 56 wins and is stored. -/
theorem C4_witness :
    ((scraper collabOK urlA respThe stateLongest52).2.longest_page =
      if (pySplit rawThe.text).length > stateLongest52.longest_page.2 then
        ((some urlA : Option String), (pySplit rawThe.text).length)
      else stateLongest52.longest_page) ∧
    (pySplit rawThe.text).length = 56 := by
  have h := C4_amended_longest_uses_raw_count collabOK urlA respThe stateLongest52 rawThe
    rfl rfl (by decide) (by decide) (by decide) (by decide) (by decide)
  exact ⟨h, by decide⟩

/-- Claim C8: a 300–399 response that passes the robots gate and carries a
`Location` header makes `scraper` return exactly that one-element list, and
the word counts, subdomain counts, longest-page record, visited set,
fingerprint set and queue are all unchanged (no text extraction or
statistics step runs); with the header absent the response is rejected with
an empty list. -/
theorem C8_redirect_sole_link_and_frame (ext : Collab) (url : String) (resp : Resp)
    (s0 : CrawlState) (raw : Raw)
    (hraw : resp.raw_response = some raw)
    (h3 : 300 ≤ resp.status ∧ resp.status ≤ 399)
    (hcf : (can_fetch ext url s0).1 = true) :
    (∀ loc : String, raw.location = some loc → (scraper ext url resp s0).1 = [loc]) ∧
    (raw.location = none → (scraper ext url resp s0).1 = []) ∧
    (scraper ext url resp s0).2.word_counts = s0.word_counts ∧
    (scraper ext url resp s0).2.subdomains = s0.subdomains ∧
    (scraper ext url resp s0).2.longest_page = s0.longest_page ∧
    (scraper ext url resp s0).2.visited_urls = s0.visited_urls ∧
    (scraper ext url resp s0).2.visited_hashes = s0.visited_hashes ∧
    (scraper ext url resp s0).2.url_queue = s0.url_queue := by
  have heq := scraper_redirect_eq ext url resp s0 raw hraw h3 hcf
  rcases can_fetch_frame ext url s0 with ⟨h1, h2, hsub, hwcnt, hlp, hq⟩
  rw [heq]
  refine ⟨?_, ?_, hwcnt, hsub, hlp, h1, h2, hq⟩
  · intro loc hl; rw [hl]
  · intro hl; rw [hl]

/-- Claim C8, witness: the concrete 302 response with
`Location: https://a.ics.uci.edu/y` yields exactly that list and leaves the
listed state components unchanged. -/
theorem C8_witness :
    (scraper collabOK urlA respRedir initState).1 = [locY] ∧
    (scraper collabOK urlA respRedir initState).2.word_counts = initState.word_counts ∧
    (scraper collabOK urlA respRedir initState).2.visited_urls = initState.visited_urls ∧
    (scraper collabOK urlA respRedir initState).2.visited_hashes = initState.visited_hashes ∧
    (scraper collabOK urlA respRedir initState).2.url_queue = initState.url_queue := by
  have h := C8_redirect_sole_link_and_frame collabOK urlA respRedir initState rawRedir
    rfl (by decide) (by decide)
  exact ⟨h.1 locY rfl, h.2.2.1, h.2.2.2.2.2.1, h.2.2.2.2.2.2.1, h.2.2.2.2.2.2.2⟩

/-- Claim C10: with the origin's policy cached and allowing, a 300–399
response with a `Location` header makes `scraper` return that header value
verbatim — no `is_valid`, `is_trap` or visited-set check is applied to it,
it is not added to `visited_urls`, and the whole state is returned exactly
as it came in, so a repeated call with the same response returns the same
URL again. -/
theorem C10_redirect_verbatim (ext : Collab) (url : String) (resp : Resp) (s0 : CrawlState)
    (raw : Raw) (loc : String) (p : String → Bool)
    (hrp : s0.robots_parsers (robots_domain ext url) = some (RobotsParser.policy p))
    (hpu : p url = true)
    (h3 : 300 ≤ resp.status ∧ resp.status ≤ 399)
    (hraw : resp.raw_response = some raw) (hloc : raw.location = some loc) :
    scraper ext url resp s0 = ([loc], s0) ∧
    scraper ext url resp (scraper ext url resp s0).2 = ([loc], s0) := by
  have hhit := can_fetch_hit ext url s0 (RobotsParser.policy p) hrp
  have hcf : (can_fetch ext url s0).1 = true := by
    rw [hhit]
    simpa [rp_can_fetch] using hpu
  have heq := scraper_redirect_eq ext url resp s0 raw hraw h3 hcf
  have hs2 : (can_fetch ext url s0).2 = s0 := by rw [hhit]
  have h1 : scraper ext url resp s0 = ([loc], s0) := by
    rw [heq, hloc, hs2]
  refine ⟨h1, ?_⟩
  rw [h1]
  exact h1

/-- Claim C10, witness: the redirect target lies outside the allow-list
(`is_valid` rejects it) and is already in `visited_urls`, yet `scraper`
returns it verbatim and the state — including `visited_urls` — is returned
untouched. -/
theorem C10_witness :
    scraper collabOK urlA respRedirEvil stateSeenEvil = ([locEvil], stateSeenEvil) ∧
    is_valid (collabOK.parse locEvil) = false ∧
    locEvil ∈ stateSeenEvil.visited_urls := by
  have h := C10_redirect_verbatim collabOK urlA respRedirEvil stateSeenEvil rawRedirEvil
    locEvil (fun _ => true) rfl rfl (by decide) rfl rfl
  exact ⟨h.1, by decide, by decide⟩
